import Mathlib

/-!
Shallow embedding of `src/PWR110Calculator.py` (Prowrap ISO 24817 / ASME PCC-2
composite-repair calculator).  The pipeline `run_calculation` is modelled as a
pure function from an input record to `Except CalcError Result`:

* Python floats are modelled as exact rationals (`ℚ`); `math.pi` is modelled by
  the exact rational value of the IEEE-754 double `math.pi` used by CPython.
* The two validation messages appended to `errors` become the `VError` list
  built by `validationErrors`, in the code's append order.
* A Python `ZeroDivisionError` escaping `run_calculation` (division by a zero
  `wall`, `design_factor` or `od`, the only fallible divisions on the main
  path) is modelled as `Except.error CalcError.zeroDivision`.
* `st.session_state.force_3_layers` is modelled as an explicit Boolean input
  field, as the computation reads it as an ambient input.
-/

namespace PWR110

/-- Defect mechanism, the values of the `Mechanism` select box. -/
inductive Mechanism
  | Corrosion
  | Dent
  | Leak
  | Crack
  deriving DecidableEq

/-- Defect location, the values of the `Location` select box. -/
inductive Location
  | External
  | Internal
  deriving DecidableEq

/-- Repair classification tag: the code stores strings such as
`"Type A (Load Sharing)"`; downstream branches only test whether the string
contains `"Type A"`, so the tag is modelled as a two-valued type. -/
inductive RepairTag
  | TypeA
  | TypeB
  deriving DecidableEq

namespace PROWRAP

/-- `PROWRAP["ply_thickness"]` (mm). -/
def ply_thickness : ℚ := 0.83

/-- `PROWRAP["modulus_circ"]` (MPa). -/
def modulus_circ : ℚ := 45460

/-- `PROWRAP["modulus_axial"]` (MPa). -/
def modulus_axial : ℚ := 43800

/-- `PROWRAP["tensile_strength"]` (MPa). -/
def tensile_strength : ℚ := 574.1

/-- `PROWRAP["strain_fail"]`. -/
def strain_fail : ℚ := 0.0233

/-- `PROWRAP["lap_shear"]` (MPa). -/
def lap_shear : ℚ := 7.37

/-- `PROWRAP["max_temp"]` (°C). -/
def max_temp : ℚ := 55.5

/-- `PROWRAP["shore_d"]`. -/
def shore_d : ℚ := 79.1

/-- `PROWRAP["cloth_width_mm"]`. -/
def cloth_width_mm : ℚ := 300

/-- `PROWRAP["stitching_overlap_mm"]`. -/
def stitching_overlap_mm : ℚ := 50

end PROWRAP

/-- Exact rational value of the IEEE-754 double `math.pi` used by the Python
source (`884279719003555 / 2 ^ 48`). -/
def piQ : ℚ := 884279719003555 / 281474976710656

/-- The numeric and categorical arguments of `run_calculation` (the three
string arguments `customer`, `location`, `report_no` are presentation-only and
omitted), plus the ambient `st.session_state.force_3_layers` flag the function
reads. -/
structure Inputs where
  od : ℚ
  wall : ℚ
  pressure : ℚ
  temp : ℚ
  defect_type : Mechanism
  defect_loc : Location
  length : ℚ
  rem_wall : ℚ
  yield_strength : ℚ
  design_factor : ℚ
  force_3_layers : Bool
  deriving DecidableEq

/-- The two validation messages of section A of `run_calculation`. -/
inductive VError
  | tempExceedsLimit
  | remWallExceedsNominal
  deriving DecidableEq

/-- How an invocation of `run_calculation` can fail to produce a result:
either the validation block returns early after reporting its messages, or a
division by zero raises. -/
inductive CalcError
  | validation (errs : List VError)
  | zeroDivision
  deriving DecidableEq

/-- The numeric outputs of `run_calculation` relevant to the result record
(`report_data` / displayed metrics). -/
structure Result where
  calc_method_thick : RepairTag
  calc_method_overlap : RepairTag
  wall_loss : ℚ
  design_strain : ℚ
  sf : ℚ
  t_required : ℚ
  num_plies : ℤ
  final_thickness : ℚ
  overlap_length : ℚ
  iso_length : ℚ
  num_bands : ℤ
  proc_length : ℤ
  optimized_sqm : ℚ
  epoxy_kg : ℚ
  deriving DecidableEq

/-- Section A of `run_calculation`: the `errors` list, in append order. -/
def validationErrors (i : Inputs) : List VError :=
  (if i.temp > PROWRAP.max_temp then [VError.tempExceedsLimit] else []) ++
    (if i.rem_wall > i.wall then [VError.remWallExceedsNominal] else [])

/-- `wall_loss_ratio = (wall - rem_wall) / wall` (section B). -/
def wall_loss (i : Inputs) : ℚ := (i.wall - i.rem_wall) / i.wall

/-- Section B of `run_calculation`: the repair-class decision, with
`loss` the wall-loss ratio.  The `if defect_type == "Corrosion"` chain is
translated branch for branch; the initial default assignment is Type B for
both tags and is only kept for mechanisms outside the four-valued enum, so
it disappears here. -/
def classify (defect_type : Mechanism) (defect_loc : Location) (loss : ℚ) :
    RepairTag × RepairTag :=
  match defect_type with
  | Mechanism.Corrosion =>
      if defect_loc = Location.External ∧ ¬ loss > 0.65 then
        (RepairTag.TypeA, RepairTag.TypeA)
      else
        (RepairTag.TypeB, RepairTag.TypeB)
  | Mechanism.Dent => (RepairTag.TypeA, RepairTag.TypeB)
  | Mechanism.Leak => (RepairTag.TypeB, RepairTag.TypeB)
  | Mechanism.Crack => (RepairTag.TypeB, RepairTag.TypeB)

/-- The thickness-sizing tag of `classify` applied to an input record. -/
def calc_method_thick (i : Inputs) : RepairTag :=
  (classify i.defect_type i.defect_loc (wall_loss i)).1

/-- The overlap-sizing tag of `classify` applied to an input record. -/
def calc_method_overlap (i : Inputs) : RepairTag :=
  (classify i.defect_type i.defect_loc (wall_loss i)).2

/-- `safety_factor = 1.0 / design_factor` (section C). -/
def safety_factor (i : Inputs) : ℚ := 1 / i.design_factor

/-- `temp_factor = 0.95 if temp > 40 else 1.0` (section C). -/
def temp_factor (temp : ℚ) : ℚ := if temp > 40 then 0.95 else 1

/-- `design_strain = (PROWRAP["strain_fail"] * temp_factor) / safety_factor`
(section C). -/
def design_strain (i : Inputs) : ℚ :=
  PROWRAP.strain_fail * temp_factor i.temp / safety_factor i

/-- `pressure_mpa = pressure * 0.1` (section D). -/
def pressure_mpa (i : Inputs) : ℚ := i.pressure * 0.1

/-- `theoretical_capacity = (2 * allowable_steel_stress * rem_wall) / od` with
`allowable_steel_stress = yield_strength * design_factor` (section D). -/
def theoretical_capacity (i : Inputs) : ℚ :=
  2 * (i.yield_strength * i.design_factor) * i.rem_wall / i.od

/-- `p_steel_capacity` (section D): forced to zero for Leak/Crack, internal
defects or severe wall loss. -/
def p_steel_capacity (i : Inputs) : ℚ :=
  if i.defect_type = Mechanism.Leak ∨ i.defect_type = Mechanism.Crack ∨
      i.defect_loc = Location.Internal ∨ wall_loss i > 0.65 then
    0
  else
    theoretical_capacity i

/-- `p_composite_design` (section E). -/
def p_composite_design (i : Inputs) : ℚ :=
  if calc_method_thick i = RepairTag.TypeA ∧ p_steel_capacity i > 0 then
    max 0 (pressure_mpa i - p_steel_capacity i)
  else
    pressure_mpa i

/-- `t_required` (section E). -/
def t_required (i : Inputs) : ℚ :=
  if p_composite_design i > 0 then
    p_composite_design i * i.od / (2 * PROWRAP.modulus_circ * design_strain i)
  else
    0

/-- `min_plies = 4 if defect_type == "Leak" else 2` (section E). -/
def min_plies (i : Inputs) : ℤ := if i.defect_type = Mechanism.Leak then 4 else 2

/-- `num_plies = max(math.ceil(t_required / ply_thickness), min_plies)`
(section E, before the override). -/
def num_plies_base (i : Inputs) : ℤ :=
  max ⌈t_required i / PROWRAP.ply_thickness⌉ (min_plies i)

/-- The 3-layer dynamic override: `if force_3_layers and num_plies < 3:
num_plies = 3`. -/
def num_plies (i : Inputs) : ℤ :=
  if i.force_3_layers ∧ num_plies_base i < 3 then 3 else num_plies_base i

/-- `final_thickness = num_plies * ply_thickness`. -/
def final_thickness (n : ℤ) : ℚ := n * PROWRAP.ply_thickness

/-- Section F of `run_calculation`: overlap length, recomputed from the ply
count `n` in force. -/
def overlap_length (i : Inputs) (n : ℤ) : ℚ :=
  if calc_method_overlap i = RepairTag.TypeA then
    max 50 (3 * final_thickness n)
  else
    max (final_thickness n * PROWRAP.modulus_circ * design_strain i /
          (PROWRAP.lap_shear / safety_factor i))
      50

/-- `total_repair_length_calc = length + (2 * overlap_length)` (section F). -/
def total_repair_length_calc (i : Inputs) (n : ℤ) : ℚ :=
  i.length + 2 * overlap_length i n

/-- `num_bands` (section G) as a function of the total repair length. -/
def num_bands (L : ℚ) : ℤ :=
  if L ≤ PROWRAP.cloth_width_mm then 1 else ⌈(L - 300) / 250⌉ + 1

/-- `procurement_axial_length` (section G) as a function of the total repair
length. -/
def procurement_axial_length (L : ℚ) : ℤ :=
  if L ≤ PROWRAP.cloth_width_mm then 300 else num_bands L * 300

/-- `optimized_sqm = axial_procurement_m * circumference_m * num_plies`
(section G). -/
def optimized_sqm (i : Inputs) (n : ℤ) : ℚ :=
  ((procurement_axial_length (total_repair_length_calc i n) : ℚ) / 1000) *
    (piQ * i.od / 1000) * n

/-- `epoxy_kg = optimized_sqm * 1.2` (section G). -/
def epoxy_kg (i : Inputs) (n : ℤ) : ℚ := optimized_sqm i n * 1.2

/-- The result record assembled from an input record and the ply count `n` in
force after the override. -/
def compute_from (i : Inputs) (n : ℤ) : Result :=
  ⟨calc_method_thick i, calc_method_overlap i, wall_loss i, design_strain i,
    safety_factor i, t_required i, n, final_thickness n, overlap_length i n,
    total_repair_length_calc i n, num_bands (total_repair_length_calc i n),
    procurement_axial_length (total_repair_length_calc i n),
    optimized_sqm i n, epoxy_kg i n⟩

/-- The result record of a successful run. -/
def compute (i : Inputs) : Result := compute_from i (num_plies i)

/-- `run_calculation`: the validation block returns early when `errors` is
nonempty; otherwise the first division whose denominator is zero (`wall` at
line 98, `design_factor` at line 119, `od` at line 126 — all unconditionally
evaluated, all observationally equivalent failures) raises; otherwise the
pipeline completes with the result record. -/
def run_calculation (i : Inputs) : Except CalcError Result :=
  if validationErrors i ≠ [] then
    Except.error (CalcError.validation (validationErrors i))
  else if i.wall = 0 ∨ i.design_factor = 0 ∨ i.od = 0 then
    Except.error CalcError.zeroDivision
  else
    Except.ok (compute i)

/-- The input record with the design pressure replaced, all other fields
kept: used to state pressure monotonicity. -/
def setPressure (i : Inputs) (p : ℚ) : Inputs :=
  ⟨i.od, i.wall, p, i.temp, i.defect_type, i.defect_loc, i.length, i.rem_wall,
    i.yield_strength, i.design_factor, i.force_3_layers⟩

/-- The input record with the forced-3-layer flag switched on, all other
fields kept: models `st.session_state.force_3_layers = True` followed by
`st.rerun()`. -/
def withForce3 (i : Inputs) : Inputs :=
  ⟨i.od, i.wall, i.pressure, i.temp, i.defect_type, i.defect_loc, i.length,
    i.rem_wall, i.yield_strength, i.design_factor, true⟩

/-! ### Basic facts about `run_calculation` -/

/-- A run succeeds exactly when the validation list is empty and no divisor on
the main path is zero; the returned record is `compute`. Forward direction. -/
theorem run_ok (i : Inputs) (r : Result) (h : run_calculation i = Except.ok r) :
    validationErrors i = [] ∧ i.wall ≠ 0 ∧ i.design_factor ≠ 0 ∧ i.od ≠ 0 ∧
      r = compute i := by
  unfold run_calculation at h
  by_cases h1 : validationErrors i ≠ []
  · rw [if_pos h1] at h
    exact absurd h (by simp)
  · rw [if_neg h1] at h
    by_cases h2 : i.wall = 0 ∨ i.design_factor = 0 ∨ i.od = 0
    · rw [if_pos h2] at h
      exact absurd h (by simp)
    · rw [if_neg h2] at h
      push_neg at h2
      injection h with h
      exact ⟨not_not.mp h1, h2.1, h2.2.1, h2.2.2, h.symm⟩

/-- A run succeeds exactly when the validation list is empty and no divisor on
the main path is zero. Backward direction. -/
theorem run_ok_of (i : Inputs) (hv : validationErrors i = [])
    (hw : i.wall ≠ 0) (hdf : i.design_factor ≠ 0) (hod : i.od ≠ 0) :
    run_calculation i = Except.ok (compute i) := by
  unfold run_calculation
  rw [if_neg (by simp [hv]), if_neg (by push_neg; exact ⟨hw, hdf, hod⟩)]

/-! ### C1: the repair-class decision table -/

/-- C1: the repair-class tags are a pure function of mechanism, location and
wall-loss ratio given by the decision table: Leak or Crack give Type B for
both tags; External Corrosion with wall loss at most 0.65 gives Type A for
both; Corrosion that is Internal or has wall loss above 0.65 gives Type B for
both; Dent gives thickness tag Type A and overlap tag Type B; in particular
External Corrosion at 70 % wall loss gives Type B for both tags. -/
theorem c1_repair_class_table :
    (∀ (loc : Location) (w : ℚ),
      classify Mechanism.Leak loc w = (RepairTag.TypeB, RepairTag.TypeB) ∧
      classify Mechanism.Crack loc w = (RepairTag.TypeB, RepairTag.TypeB)) ∧
    (∀ w : ℚ, w ≤ 0.65 →
      classify Mechanism.Corrosion Location.External w =
        (RepairTag.TypeA, RepairTag.TypeA)) ∧
    (∀ w : ℚ,
      classify Mechanism.Corrosion Location.Internal w =
        (RepairTag.TypeB, RepairTag.TypeB)) ∧
    (∀ (loc : Location) (w : ℚ), w > 0.65 →
      classify Mechanism.Corrosion loc w = (RepairTag.TypeB, RepairTag.TypeB)) ∧
    (∀ (loc : Location) (w : ℚ),
      classify Mechanism.Dent loc w = (RepairTag.TypeA, RepairTag.TypeB)) ∧
    classify Mechanism.Corrosion Location.External (70 / 100) =
      (RepairTag.TypeB, RepairTag.TypeB) := by
  refine ⟨fun loc w => ⟨rfl, rfl⟩, fun w hw => ?_, fun w => ?_,
    fun loc w hw => ?_, fun loc w => rfl, ?_⟩
  · simp [classify, not_lt.mpr hw]
  · simp [classify]
  · simp [classify, hw]
  · have : (70 : ℚ) / 100 > 0.65 := by norm_num
    simp [classify, this]

/-- Witness for C1: the decision table evaluated at wall-loss ratios 0.5 and
0.7 for External Corrosion. -/
theorem c1_repair_class_table_witness :
    classify Mechanism.Corrosion Location.External (1 / 2) =
        (RepairTag.TypeA, RepairTag.TypeA) ∧
    classify Mechanism.Corrosion Location.Internal (1 / 2) =
        (RepairTag.TypeB, RepairTag.TypeB) ∧
    classify Mechanism.Corrosion Location.External (7 / 10) =
        (RepairTag.TypeB, RepairTag.TypeB) :=
  ⟨c1_repair_class_table.2.1 (1 / 2) (by norm_num),
    c1_repair_class_table.2.2.1 (1 / 2),
    c1_repair_class_table.2.2.2.1 Location.External (7 / 10) (by norm_num)⟩

/-! ### C6: temperature validation -/

/-- C6: when the operating temperature exceeds the certified maximum service
temperature 55.5 °C the run reports a validation error and produces no result
record; the temperature and remaining-wall checks are independent, and when
both are violated both messages are reported together. -/
theorem c6_temperature_validation (i : Inputs) (h : i.temp > 55.5) :
    run_calculation i = Except.error (CalcError.validation (validationErrors i)) ∧
    (∀ r : Result, run_calculation i ≠ Except.ok r) ∧
    VError.tempExceedsLimit ∈ validationErrors i ∧
    (i.rem_wall > i.wall →
      validationErrors i =
        [VError.tempExceedsLimit, VError.remWallExceedsNominal]) := by
  have hmax : i.temp > PROWRAP.max_temp := h
  have hl : ∃ l, validationErrors i = VError.tempExceedsLimit :: l := by
    unfold validationErrors
    rw [if_pos hmax]
    exact ⟨_, rfl⟩
  obtain ⟨l, hl⟩ := hl
  have hne : validationErrors i ≠ [] := by rw [hl]; simp
  have hrun : run_calculation i =
      Except.error (CalcError.validation (validationErrors i)) := by
    unfold run_calculation
    rw [if_pos hne]
  refine ⟨hrun, fun r hr => ?_, ?_, fun hrw => ?_⟩
  · rw [hrun] at hr
    exact absurd hr (by simp)
  · rw [hl]
    exact List.mem_cons_self _ _
  · unfold validationErrors
    rw [if_pos hmax, if_pos hrw]
    rfl

/-- Input record for the C6 witness: temperature 60 °C above the 55.5 °C
limit, and remaining wall 12 mm above the 10 mm nominal wall, so that both
validation messages fire together. -/
def ex6 : Inputs :=
  ⟨200, 10, 50, 60, Mechanism.Corrosion, Location.External, 100, 12, 300,
    0.72, false⟩

/-- Witness for C6: at `ex6` the run aborts with the validation report, and
both messages are reported together. -/
theorem c6_temperature_validation_witness :
    run_calculation ex6 =
        Except.error (CalcError.validation (validationErrors ex6)) ∧
    validationErrors ex6 =
        [VError.tempExceedsLimit, VError.remWallExceedsNominal] := by
  have h := c6_temperature_validation ex6 (by norm_num [ex6])
  exact ⟨h.1, h.2.2.2 (by norm_num [ex6])⟩

/-! ### C2: mechanism-specific minimum ply count -/

/-- C2: every successful run yields a ply count at least the
mechanism-specific floor — at least 4 for Leak, at least 2 otherwise, and at
least 3 when the operator-forced 3-layer override is active; for Leak with
design pressure 0 the ply count is exactly 4. -/
theorem c2_min_ply_floor (i : Inputs) (r : Result)
    (h : run_calculation i = Except.ok r) :
    (i.defect_type = Mechanism.Leak → 4 ≤ r.num_plies) ∧
    (i.defect_type ≠ Mechanism.Leak → 2 ≤ r.num_plies) ∧
    (i.force_3_layers = true → 3 ≤ r.num_plies) ∧
    (i.defect_type = Mechanism.Leak → i.pressure = 0 → r.num_plies = 4) := by
  obtain ⟨-, -, -, -, rfl⟩ := run_ok i r h
  have hproj : (compute i).num_plies = num_plies i := rfl
  rw [hproj]
  have hbase : min_plies i ≤ num_plies_base i := le_max_right _ _
  refine ⟨fun hLeak => ?_, fun hnLeak => ?_, fun hf => ?_, fun hLeak hp => ?_⟩
  · have hmin : min_plies i = 4 := by simp [min_plies, hLeak]
    unfold num_plies
    split_ifs with hc
    · omega
    · omega
  · have hmin : min_plies i = 2 := by simp [min_plies, hnLeak]
    unfold num_plies
    split_ifs with hc
    · omega
    · omega
  · unfold num_plies
    split_ifs with hc
    · omega
    · rw [hf] at hc
      simp only [true_and] at hc
      omega
  · have hthick : calc_method_thick i = RepairTag.TypeB := by
      simp [calc_method_thick, hLeak, classify]
    have hpm : pressure_mpa i = 0 := by simp [pressure_mpa, hp]
    have hpc : p_composite_design i = 0 := by
      unfold p_composite_design
      rw [if_neg (by rw [hthick]; rintro ⟨h1, -⟩; cases h1)]
      exact hpm
    have ht : t_required i = 0 := by
      unfold t_required
      rw [if_neg (by rw [hpc]; norm_num)]
    have hb : num_plies_base i = 4 := by
      unfold num_plies_base
      rw [ht]
      have hmin : min_plies i = 4 := by simp [min_plies, hLeak]
      rw [hmin]
      norm_num
    unfold num_plies
    rw [hb]
    norm_num

/-- Input record for the C2 witness: a Leak defect at design pressure 0, with
the forced 3-layer override active. -/
def ex2 : Inputs :=
  ⟨200, 10, 0, 20, Mechanism.Leak, Location.External, 100, 5, 300, 1, true⟩

/-- Input record for the C2 witness, non-Leak branch. -/
def ex2b : Inputs :=
  ⟨200, 10, 50, 20, Mechanism.Corrosion, Location.External, 100, 5, 300, 1,
    false⟩

/-- Witness for C2: at `ex2` (a Leak at pressure 0, with the override on) the
ply count is exactly 4, hence at least the floors; at `ex2b` (Corrosion) it is
at least 2. -/
theorem c2_min_ply_floor_witness :
    run_calculation ex2 = Except.ok (compute ex2) ∧
    4 ≤ (compute ex2).num_plies ∧
    3 ≤ (compute ex2).num_plies ∧
    (compute ex2).num_plies = 4 ∧
    2 ≤ (compute ex2b).num_plies := by
  have h1run : run_calculation ex2 = Except.ok (compute ex2) :=
    run_ok_of ex2 (by norm_num [validationErrors, PROWRAP.max_temp, ex2]) (by norm_num [ex2])
      (by norm_num [ex2]) (by norm_num [ex2])
  have h2run : run_calculation ex2b = Except.ok (compute ex2b) :=
    run_ok_of ex2b (by norm_num [validationErrors, PROWRAP.max_temp, ex2b]) (by norm_num [ex2b])
      (by norm_num [ex2b]) (by norm_num [ex2b])
  have h1 := c2_min_ply_floor ex2 (compute ex2) h1run
  have h2 := c2_min_ply_floor ex2b (compute ex2b) h2run
  exact ⟨h1run, h1.1 rfl, h1.2.2.1 rfl, h1.2.2.2 rfl rfl,
    h2.2.1 (by simp [ex2b])⟩

/-! ### C3: strain derating -/

/-- C3: for every successful run the design strain equals the certified
strain-at-failure 0.0233 times the temperature factor, divided by the safety
factor `1 / design_factor`, where the temperature factor is 0.95 when the
design temperature is strictly above 40 °C and 1.0 otherwise. -/
theorem c3_design_strain (i : Inputs) (r : Result)
    (h : run_calculation i = Except.ok r) :
    r.design_strain =
      0.0233 * (if i.temp > 40 then (0.95 : ℚ) else 1) /
        (1 / i.design_factor) := by
  obtain ⟨-, -, -, -, rfl⟩ := run_ok i r h
  rfl

/-- Input record for the C3 witness: design temperature 45 °C, above the
40 °C step, with design factor 1/2. -/
def ex3 : Inputs :=
  ⟨200, 10, 50, 45, Mechanism.Corrosion, Location.External, 100, 5, 300,
    0.5, false⟩

/-- Witness for C3: at `ex3` the design strain evaluates through the 0.95
branch of the step function. -/
theorem c3_design_strain_witness :
    run_calculation ex3 = Except.ok (compute ex3) ∧
    (compute ex3).design_strain = 0.0233 * 0.95 / (1 / (0.5 : ℚ)) := by
  have hrun : run_calculation ex3 = Except.ok (compute ex3) :=
    run_ok_of ex3 (by norm_num [validationErrors, PROWRAP.max_temp, ex3]) (by norm_num [ex3])
      (by norm_num [ex3]) (by norm_num [ex3])
  have h := c3_design_strain ex3 (compute ex3) hrun
  refine ⟨hrun, ?_⟩
  rw [h]
  norm_num [ex3]

/-! ### C4: overlap-length rules -/

/-- C4: for every successful run, the overlap length is
`max 50 (3 × final thickness)` under the Type A overlap tag and
`max (final thickness × circumferential modulus × design strain /
(lap shear strength / safety factor)) 50` under the Type B tag; in either case
the overlap length is at least 50 mm. -/
theorem c4_overlap_rules (i : Inputs) (r : Result)
    (h : run_calculation i = Except.ok r) :
    (r.calc_method_overlap = RepairTag.TypeA →
      r.overlap_length = max 50 (3 * r.final_thickness)) ∧
    (r.calc_method_overlap = RepairTag.TypeB →
      r.overlap_length =
        max (r.final_thickness * 45460 * r.design_strain / (7.37 / r.sf)) 50) ∧
    50 ≤ r.overlap_length := by
  obtain ⟨-, -, -, -, rfl⟩ := run_ok i r h
  have hproj : (compute i).calc_method_overlap = calc_method_overlap i := rfl
  rw [hproj]
  refine ⟨fun hA => ?_, fun hB => ?_, ?_⟩
  · show overlap_length i (num_plies i) = _
    unfold overlap_length
    rw [if_pos hA]
    rfl
  · show overlap_length i (num_plies i) = _
    unfold overlap_length
    rw [if_neg (by rw [hB]; rintro h1; cases h1)]
    rfl
  · show (50 : ℚ) ≤ overlap_length i (num_plies i)
    unfold overlap_length
    split_ifs
    · exact le_max_left _ _
    · exact le_max_right _ _

/-- Input record for the C4 witness, Type A overlap branch (mild external
corrosion). -/
def ex4a : Inputs :=
  ⟨200, 10, 50, 20, Mechanism.Corrosion, Location.External, 100, 5, 300, 1,
    false⟩

/-- Input record for the C4 witness, Type B overlap branch (a leak). -/
def ex4b : Inputs :=
  ⟨200, 10, 50, 20, Mechanism.Leak, Location.External, 100, 5, 300, 1, false⟩

/-- Witness for C4: the two overlap formulas evaluated on a Type A run and a
Type B run, and the 50 mm lower bound on the Type A run. -/
theorem c4_overlap_rules_witness :
    (compute ex4a).overlap_length = max 50 (3 * (compute ex4a).final_thickness) ∧
    (compute ex4b).overlap_length =
      max ((compute ex4b).final_thickness * 45460 * (compute ex4b).design_strain /
            (7.37 / (compute ex4b).sf)) 50 ∧
    50 ≤ (compute ex4a).overlap_length := by
  have haRun : run_calculation ex4a = Except.ok (compute ex4a) :=
    run_ok_of ex4a (by norm_num [validationErrors, PROWRAP.max_temp, ex4a]) (by norm_num [ex4a])
      (by norm_num [ex4a]) (by norm_num [ex4a])
  have hbRun : run_calculation ex4b = Except.ok (compute ex4b) :=
    run_ok_of ex4b (by norm_num [validationErrors, PROWRAP.max_temp, ex4b]) (by norm_num [ex4b])
      (by norm_num [ex4b]) (by norm_num [ex4b])
  have ha := c4_overlap_rules ex4a (compute ex4a) haRun
  have hb := c4_overlap_rules ex4b (compute ex4b) hbRun
  have htagA : (compute ex4a).calc_method_overlap = RepairTag.TypeA := by
    show calc_method_overlap ex4a = RepairTag.TypeA
    norm_num [calc_method_overlap, classify, wall_loss, ex4a]
  have htagB : (compute ex4b).calc_method_overlap = RepairTag.TypeB := by
    show calc_method_overlap ex4b = RepairTag.TypeB
    norm_num [calc_method_overlap, classify, ex4b]
  exact ⟨ha.1 htagA, hb.2.1 htagB, ha.2.2⟩

/-! ### C7: negative remaining wall / design-factor validation (refuted) -/

/-- Input record refuting C7: remaining wall thickness −1 mm.  The validation
block only checks `temp > max_temp` and `rem_wall > wall`, so this input is
not rejected. -/
def ex7 : Inputs :=
  ⟨200, 10, 50, 20, Mechanism.Corrosion, Location.External, 100, -1, 300,
    0.72, false⟩

/-- C7 counterexample: `ex7` has a negative remaining wall thickness, yet
`run_calculation` reports no validation error and produces a result record —
refuting the claim that such inputs abort with a fatal validation error. -/
theorem c7_counterexample :
    ex7.rem_wall < 0 ∧ validationErrors ex7 = [] ∧
      run_calculation ex7 = Except.ok (compute ex7) := by
  refine ⟨by norm_num [ex7], by norm_num [validationErrors, PROWRAP.max_temp, ex7], ?_⟩
  exact run_ok_of ex7 (by norm_num [validationErrors, PROWRAP.max_temp, ex7])
    (by norm_num [ex7]) (by norm_num [ex7]) (by norm_num [ex7])

/-- C7 amended: the pipeline's validation does not reject a negative remaining
wall or an out-of-range design factor.  An input with negative remaining wall
whose two implemented checks pass and whose divisors are nonzero still produces
a result record, and a zero design factor produces a `ZeroDivisionError`
failure, not a validation report.  (The design-factor range is only restricted
by the UI widget, outside `run_calculation`.) -/
theorem c7_no_negative_wall_validation (i : Inputs)
    (hrem : i.rem_wall < 0) (hv : validationErrors i = [])
    (hw : i.wall ≠ 0) (hdf : i.design_factor ≠ 0) (hod : i.od ≠ 0) :
    run_calculation i = Except.ok (compute i) ∧
    (∀ j : Inputs, j.design_factor = 0 → validationErrors j = [] →
      run_calculation j = Except.error CalcError.zeroDivision) := by
  refine ⟨run_ok_of i hv hw hdf hod, fun j hjdf hjv => ?_⟩
  unfold run_calculation
  rw [if_neg (by simp [hjv]), if_pos (Or.inr (Or.inl hjdf))]

/-- Input record for the C7 witness with a zero design factor. -/
def ex7b : Inputs :=
  ⟨200, 10, 50, 20, Mechanism.Corrosion, Location.External, 100, 5, 300, 0,
    false⟩

/-- Witness for C7 (amended): the negative-remaining-wall input `ex7` runs to
completion and the zero-design-factor input `ex7b` fails with the
zero-division error, not a validation report. -/
theorem c7_no_negative_wall_validation_witness :
    run_calculation ex7 = Except.ok (compute ex7) ∧
    run_calculation ex7b = Except.error CalcError.zeroDivision := by
  have h := c7_no_negative_wall_validation ex7 (by norm_num [ex7])
    (by norm_num [validationErrors, PROWRAP.max_temp, ex7])
    (by norm_num [ex7]) (by norm_num [ex7]) (by norm_num [ex7])
  exact ⟨h.1, h.2 ex7b (by norm_num [ex7b])
    (by norm_num [validationErrors, PROWRAP.max_temp, ex7b])⟩

/-! ### C8: unguarded divisions (refuted) -/

/-- Input record refuting C8: zero nominal wall thickness (with remaining wall
0, so the validation block is passed). -/
def ex8 : Inputs :=
  ⟨200, 0, 50, 20, Mechanism.Corrosion, Location.External, 100, 0, 300, 0.72,
    false⟩

/-- C8 counterexample: at `ex8` (zero nominal wall) the pipeline passes
validation and then fails with a `ZeroDivisionError` at
`wall_loss_ratio = (wall - rem_wall) / wall` — it neither runs to completion
nor reports a violated precondition, refuting the claim that every division is
guarded defensively. -/
theorem c8_counterexample :
    ex8.wall = 0 ∧ validationErrors ex8 = [] ∧
      run_calculation ex8 = Except.error CalcError.zeroDivision := by
  refine ⟨rfl, by norm_num [validationErrors, PROWRAP.max_temp, ex8], ?_⟩
  unfold run_calculation
  rw [if_neg (by norm_num [validationErrors, PROWRAP.max_temp, ex8]),
    if_pos (Or.inl (show ex8.wall = 0 from rfl))]

/-- C8 amended: the divisions of `run_calculation` are not guarded — when the
nominal wall, the design factor or the outer diameter is zero, a validated
input fails with a raised `ZeroDivisionError` (no result record, no
precondition report); for validated inputs with all three quantities nonzero
the calculation always runs to completion. -/
theorem c8_unguarded_divisions (i : Inputs) (hv : validationErrors i = [])
    (hw : i.wall ≠ 0) (hdf : i.design_factor ≠ 0) (hod : i.od ≠ 0) :
    run_calculation i = Except.ok (compute i) ∧
    (∀ j : Inputs, validationErrors j = [] →
      j.wall = 0 ∨ j.design_factor = 0 ∨ j.od = 0 →
      run_calculation j = Except.error CalcError.zeroDivision) := by
  refine ⟨run_ok_of i hv hw hdf hod, fun j hjv hj => ?_⟩
  unfold run_calculation
  rw [if_neg (by simp [hjv]), if_pos hj]

/-- Input record for the C8 witness (an ordinary valid input). -/
def ex8b : Inputs :=
  ⟨200, 10, 50, 20, Mechanism.Corrosion, Location.External, 100, 5, 300, 0.72,
    false⟩

/-- Witness for C8 (amended): the valid input `ex8b` runs to completion, and
the zero-wall input `ex8` fails with the zero-division error. -/
theorem c8_unguarded_divisions_witness :
    run_calculation ex8b = Except.ok (compute ex8b) ∧
    run_calculation ex8 = Except.error CalcError.zeroDivision := by
  have h := c8_unguarded_divisions ex8b
    (by norm_num [validationErrors, PROWRAP.max_temp, ex8b])
    (by norm_num [ex8b]) (by norm_num [ex8b]) (by norm_num [ex8b])
  exact ⟨h.1, h.2 ex8 (by norm_num [validationErrors, PROWRAP.max_temp, ex8])
    (Or.inl rfl)⟩

/-! ### C9: band packing and procurement length -/

/-- C9: the band count is 1 when the total repair length `L` is at most
300 mm and `⌈(L − 300) / 250⌉ + 1` otherwise; it is the least positive integer
`n` with `300 + 250 (n − 1) ≥ L`; the procurement length is `300 × band count`
and is at least `L`; and a successful run's band count and procurement length
are exactly these functions of its total repair length. -/
theorem c9_band_packing :
    (∀ L : ℚ,
      (L ≤ 300 → num_bands L = 1) ∧
      (300 < L → num_bands L = ⌈(L - 300) / 250⌉ + 1) ∧
      0 < num_bands L ∧
      L ≤ 300 + 250 * ((num_bands L : ℚ) - 1) ∧
      (∀ n : ℤ, 0 < n → L ≤ 300 + 250 * ((n : ℚ) - 1) → num_bands L ≤ n) ∧
      procurement_axial_length L = 300 * num_bands L ∧
      L ≤ (procurement_axial_length L : ℚ)) ∧
    (∀ (i : Inputs) (r : Result), run_calculation i = Except.ok r →
      r.num_bands = num_bands r.iso_length ∧
      r.proc_length = procurement_axial_length r.iso_length) := by
  constructor
  · intro L
    by_cases hL : L ≤ PROWRAP.cloth_width_mm
    · have hL' : L ≤ 300 := hL
      have hb : num_bands L = 1 := by unfold num_bands; rw [if_pos hL]
      have hp : procurement_axial_length L = 300 := by
        unfold procurement_axial_length; rw [if_pos hL]
      refine ⟨fun _ => hb, fun hgt => absurd hL' (not_le.mpr hgt), ?_, ?_, ?_, ?_, ?_⟩
      · rw [hb]; norm_num
      · rw [hb]; push_cast; linarith
      · intro n hn _; rw [hb]; omega
      · rw [hp, hb]; norm_num
      · rw [hp]; push_cast; linarith
    · have hgt : (300 : ℚ) < L := not_le.mp hL
      have hx : (0 : ℚ) < (L - 300) / 250 :=
        div_pos (by linarith) (by norm_num)
      have hcx : 0 < ⌈(L - 300) / 250⌉ := Int.ceil_pos.mpr hx
      have hb : num_bands L = ⌈(L - 300) / 250⌉ + 1 := by
        unfold num_bands
        rw [if_neg hL]
      have hmul : (250 : ℚ) * ((L - 300) / 250) = L - 300 := by field_simp
      have hle : L - 300 ≤ 250 * (⌈(L - 300) / 250⌉ : ℚ) := by
        have h1 := Int.le_ceil ((L - 300) / 250)
        linarith
      have hp : procurement_axial_length L = num_bands L * 300 := by
        unfold procurement_axial_length num_bands
        rw [if_neg hL, if_neg hL]
      have hbq : (1 : ℚ) ≤ (⌈(L - 300) / 250⌉ : ℚ) := by exact_mod_cast hcx
      refine ⟨fun hle300 => absurd hgt (not_lt.mpr hle300), fun _ => hb, ?_, ?_,
        ?_, ?_, ?_⟩
      · rw [hb]; omega
      · rw [hb]; push_cast; linarith
      · intro n hn hnL
        rw [hb]
        have hxn : (L - 300) / 250 ≤ ((n : ℚ) - 1) := by
          rw [div_le_iff (by norm_num : (0 : ℚ) < 250)]
          linarith
        have hcn : ⌈(L - 300) / 250⌉ ≤ n - 1 := by
          apply Int.ceil_le.mpr
          push_cast
          linarith
        omega
      · rw [hp]; ring
      · rw [hp, hb]
        push_cast
        linarith
  · intro i r h
    obtain ⟨-, -, -, -, rfl⟩ := run_ok i r h
    exact ⟨rfl, rfl⟩

/-- Input record for the C9 witness. -/
def ex9 : Inputs :=
  ⟨200, 10, 50, 20, Mechanism.Leak, Location.External, 1000, 5, 300, 0.72,
    false⟩

/-- Witness for C9: the packing facts evaluated at total length 1000 mm
(minimality checked against the candidate 4 bands), and part two applied to a
concrete successful run. -/
theorem c9_band_packing_witness :
    (1000 : ℚ) ≤ (procurement_axial_length 1000 : ℚ) ∧
    num_bands 1000 ≤ 4 ∧
    (compute ex9).num_bands = num_bands (compute ex9).iso_length := by
  have h1 := c9_band_packing.1 (1000 : ℚ)
  have hrun : run_calculation ex9 = Except.ok (compute ex9) :=
    run_ok_of ex9 (by norm_num [validationErrors, PROWRAP.max_temp, ex9])
      (by norm_num [ex9]) (by norm_num [ex9]) (by norm_num [ex9])
  refine ⟨h1.2.2.2.2.2.2, h1.2.2.2.2.1 4 (by norm_num) (by push_cast; norm_num),
    (c9_band_packing.2 ex9 (compute ex9) hrun).1⟩

/-! ### C5: monotonicity in design pressure (refuted as stated, amended) -/

/-- Monotonicity of the composite design pressure in the design pressure,
all other inputs fixed. -/
theorem p_composite_design_mono (i : Inputs) (p₁ p₂ : ℚ) (hp : p₁ ≤ p₂) :
    p_composite_design (setPressure i p₁) ≤ p_composite_design (setPressure i p₂) := by
  have hm : pressure_mpa (setPressure i p₁) ≤ pressure_mpa (setPressure i p₂) := by
    show p₁ * 0.1 ≤ p₂ * 0.1
    linarith
  unfold p_composite_design
  rw [show calc_method_thick (setPressure i p₁) = calc_method_thick (setPressure i p₂)
      from rfl,
    show p_steel_capacity (setPressure i p₁) = p_steel_capacity (setPressure i p₂)
      from rfl]
  split_ifs with hc
  · exact max_le_max le_rfl (by linarith)
  · exact hm

/-- The design strain is positive whenever the design factor is. -/
theorem design_strain_pos (i : Inputs) (hdf : 0 < i.design_factor) :
    0 < design_strain i := by
  unfold design_strain temp_factor safety_factor
  have h1 : (0 : ℚ) < PROWRAP.strain_fail := by norm_num [PROWRAP.strain_fail]
  have h2 : (0 : ℚ) < if i.temp > 40 then (0.95 : ℚ) else 1 := by
    split <;> norm_num
  exact div_pos (mul_pos h1 h2) (one_div_pos.mpr hdf)

/-- Monotonicity of the required thickness in the design pressure, given a
positive outer diameter and design factor. -/
theorem t_required_mono (i : Inputs) (p₁ p₂ : ℚ)
    (hod : 0 < i.od) (hdf : 0 < i.design_factor) (hp : p₁ ≤ p₂) :
    t_required (setPressure i p₁) ≤ t_required (setPressure i p₂) := by
  have hpc := p_composite_design_mono i p₁ p₂ hp
  have hds : 0 < design_strain i := design_strain_pos i hdf
  have hD : 0 < 2 * PROWRAP.modulus_circ * design_strain i := by
    have hmc : (0 : ℚ) < PROWRAP.modulus_circ := by norm_num [PROWRAP.modulus_circ]
    positivity
  unfold t_required
  rw [show design_strain (setPressure i p₁) = design_strain i from rfl,
    show design_strain (setPressure i p₂) = design_strain i from rfl,
    show (setPressure i p₁).od = i.od from rfl,
    show (setPressure i p₂).od = i.od from rfl]
  by_cases hb : p_composite_design (setPressure i p₂) > 0
  · rw [if_pos hb]
    by_cases ha : p_composite_design (setPressure i p₁) > 0
    · rw [if_pos ha]
      gcongr
    · rw [if_neg ha]
      exact le_of_lt (div_pos (mul_pos hb hod) hD)
  · rw [if_neg hb, if_neg (fun ha => hb (lt_of_lt_of_le ha hpc))]

/-- Monotonicity of the ply count in the design pressure, given a positive
outer diameter and design factor. -/
theorem num_plies_mono (i : Inputs) (p₁ p₂ : ℚ)
    (hod : 0 < i.od) (hdf : 0 < i.design_factor) (hp : p₁ ≤ p₂) :
    num_plies (setPressure i p₁) ≤ num_plies (setPressure i p₂) := by
  have ht := t_required_mono i p₁ p₂ hod hdf hp
  have hbase : num_plies_base (setPressure i p₁) ≤ num_plies_base (setPressure i p₂) := by
    unfold num_plies_base
    rw [show min_plies (setPressure i p₁) = min_plies (setPressure i p₂) from rfl]
    refine max_le_max ?_ le_rfl
    apply Int.ceil_le_ceil
    have hpt : (0 : ℚ) < PROWRAP.ply_thickness := by norm_num [PROWRAP.ply_thickness]
    gcongr
  unfold num_plies
  rw [show (setPressure i p₁).force_3_layers = (setPressure i p₂).force_3_layers
      from rfl]
  split_ifs with h1 h2 h2
  · omega
  · have h3 : ¬ num_plies_base (setPressure i p₂) < 3 := fun hlt => h2 ⟨h1.1, hlt⟩
    omega
  · have h3 : num_plies_base (setPressure i p₂) < 3 := h2.2
    omega
  · exact hbase

/-- Per-instance input family refuting C5: with a negative outer diameter
(which the validation block does not reject) a higher design pressure yields a
strictly smaller required thickness. -/
def c5base (p : ℚ) : Inputs :=
  ⟨-100, 10, p, 20, Mechanism.Leak, Location.External, 100, 5, 300, 1, false⟩

/-- C5 counterexample: the inputs `c5base 10` and `c5base 20` pass validation
and differ only in design pressure, yet the higher-pressure run produces a
strictly smaller required composite thickness — refuting the claim as stated
over all inputs that pass validation. -/
theorem c5_counterexample :
    (c5base 10).pressure < (c5base 20).pressure ∧
    run_calculation (c5base 10) = Except.ok (compute (c5base 10)) ∧
    run_calculation (c5base 20) = Except.ok (compute (c5base 20)) ∧
    (compute (c5base 20)).t_required < (compute (c5base 10)).t_required := by
  refine ⟨by norm_num [c5base], ?_, ?_, ?_⟩
  · exact run_ok_of _ (by norm_num [validationErrors, PROWRAP.max_temp, c5base])
      (by norm_num [c5base]) (by norm_num [c5base]) (by norm_num [c5base])
  · exact run_ok_of _ (by norm_num [validationErrors, PROWRAP.max_temp, c5base])
      (by norm_num [c5base]) (by norm_num [c5base]) (by norm_num [c5base])
  · show t_required (c5base 20) < t_required (c5base 10)
    norm_num [t_required, p_composite_design, calc_method_thick, classify,
      wall_loss, pressure_mpa, p_steel_capacity, design_strain, temp_factor,
      safety_factor, PROWRAP.strain_fail, PROWRAP.modulus_circ, c5base]

/-- C5 amended: for two validated runs that differ only in the design
pressure, and whose shared outer diameter and design factor are positive (the
physically meaningful range, which the validation block does not itself
enforce), the higher design pressure yields a required thickness and a ply
count at least as large. -/
theorem c5_pressure_monotone (i : Inputs) (p₁ p₂ : ℚ) (r₁ r₂ : Result)
    (hod : 0 < i.od) (hdf : 0 < i.design_factor) (hp : p₁ ≤ p₂)
    (h₁ : run_calculation (setPressure i p₁) = Except.ok r₁)
    (h₂ : run_calculation (setPressure i p₂) = Except.ok r₂) :
    r₁.t_required ≤ r₂.t_required ∧ r₁.num_plies ≤ r₂.num_plies := by
  obtain ⟨-, -, -, -, rfl⟩ := run_ok _ _ h₁
  obtain ⟨-, -, -, -, rfl⟩ := run_ok _ _ h₂
  exact ⟨t_required_mono i p₁ p₂ hod hdf hp, num_plies_mono i p₁ p₂ hod hdf hp⟩

/-- Input record for the C5 witness (pressure field is overwritten by
`setPressure`). -/
def ex5 : Inputs :=
  ⟨200, 10, 0, 20, Mechanism.Corrosion, Location.External, 100, 5, 300, 0.72,
    false⟩

/-- Witness for C5 (amended): monotonicity applied to two concrete validated
runs at 10 bar and 20 bar. -/
theorem c5_pressure_monotone_witness :
    (compute (setPressure ex5 10)).t_required ≤
        (compute (setPressure ex5 20)).t_required ∧
    (compute (setPressure ex5 10)).num_plies ≤
        (compute (setPressure ex5 20)).num_plies := by
  have h₁ : run_calculation (setPressure ex5 10) =
      Except.ok (compute (setPressure ex5 10)) :=
    run_ok_of _ (by norm_num [validationErrors, PROWRAP.max_temp, setPressure, ex5])
      (by norm_num [setPressure, ex5]) (by norm_num [setPressure, ex5])
      (by norm_num [setPressure, ex5])
  have h₂ : run_calculation (setPressure ex5 20) =
      Except.ok (compute (setPressure ex5 20)) :=
    run_ok_of _ (by norm_num [validationErrors, PROWRAP.max_temp, setPressure, ex5])
      (by norm_num [setPressure, ex5]) (by norm_num [setPressure, ex5])
      (by norm_num [setPressure, ex5])
  exact c5_pressure_monotone ex5 10 20 _ _ (by norm_num [ex5])
    (by norm_num [ex5]) (by norm_num) h₁ h₂

/-! ### C10: the forced 3-layer override -/

/-- C10: rerunning the pipeline with the forced 3-layer override enabled
yields ply count `max 3` of the unforced ply count (never smaller), and final
thickness, overlap length, total repair length, band count, procurement
length, fabric area and epoxy mass are all recomputed from that ply count; a
Leak repair (already at 4 or more plies) is left unchanged. -/
theorem c10_force_three_layer_rerun (i : Inputs) (r : Result)
    (hf : i.force_3_layers = false)
    (h : run_calculation i = Except.ok r) :
    run_calculation (withForce3 i) = Except.ok (compute (withForce3 i)) ∧
    (compute (withForce3 i)).num_plies = max 3 r.num_plies ∧
    r.num_plies ≤ (compute (withForce3 i)).num_plies ∧
    (compute (withForce3 i)).final_thickness =
      final_thickness (compute (withForce3 i)).num_plies ∧
    (compute (withForce3 i)).overlap_length =
      overlap_length i (compute (withForce3 i)).num_plies ∧
    (compute (withForce3 i)).iso_length =
      total_repair_length_calc i (compute (withForce3 i)).num_plies ∧
    (compute (withForce3 i)).num_bands =
      num_bands (total_repair_length_calc i (compute (withForce3 i)).num_plies) ∧
    (compute (withForce3 i)).proc_length =
      procurement_axial_length
        (total_repair_length_calc i (compute (withForce3 i)).num_plies) ∧
    (compute (withForce3 i)).optimized_sqm =
      optimized_sqm i (compute (withForce3 i)).num_plies ∧
    (compute (withForce3 i)).epoxy_kg =
      epoxy_kg i (compute (withForce3 i)).num_plies ∧
    (i.defect_type = Mechanism.Leak → compute (withForce3 i) = r) := by
  obtain ⟨hv, hw, hdf, hod, rfl⟩ := run_ok i r h
  have hrun : run_calculation (withForce3 i) =
      Except.ok (compute (withForce3 i)) :=
    run_ok_of (withForce3 i) hv hw hdf hod
  have hbase : num_plies_base (withForce3 i) = num_plies_base i := rfl
  have hni : num_plies i = num_plies_base i := by
    unfold num_plies
    rw [if_neg (by rw [hf]; simp)]
  have hnp : num_plies (withForce3 i) = max 3 (num_plies i) := by
    rw [hni]
    unfold num_plies
    rw [hbase]
    by_cases hlt : num_plies_base i < 3
    · rw [if_pos ⟨rfl, hlt⟩]
      omega
    · rw [if_neg (fun hc => hlt hc.2)]
      omega
  refine ⟨hrun, hnp, ?_, rfl, rfl, rfl, rfl, rfl, rfl, rfl, fun hLeak => ?_⟩
  · rw [show (compute (withForce3 i)).num_plies = num_plies (withForce3 i)
        from rfl, hnp]
    exact le_max_right _ _
  · have h4 : 4 ≤ num_plies_base i := by
      have hmin : min_plies i = 4 := by simp [min_plies, hLeak]
      rw [← hmin]
      exact le_max_right _ _
    have heq : num_plies (withForce3 i) = num_plies i := by
      rw [hnp, hni]
      omega
    show compute_from (withForce3 i) (num_plies (withForce3 i)) =
      compute_from i (num_plies i)
    rw [heq]
    rfl

/-- Input record for the C10 witness: mild external corrosion (which sizes to
2 plies before the override). -/
def ex10 : Inputs :=
  ⟨200, 10, 50, 20, Mechanism.Corrosion, Location.External, 100, 5, 300, 0.72,
    false⟩

/-- Input record for the C10 witness, Leak branch. -/
def ex10b : Inputs :=
  ⟨200, 10, 50, 20, Mechanism.Leak, Location.External, 100, 5, 300, 0.72,
    false⟩

/-- Witness for C10: the override applied to a concrete corrosion run, and a
Leak run left unchanged by the override. -/
theorem c10_force_three_layer_rerun_witness :
    run_calculation (withForce3 ex10) = Except.ok (compute (withForce3 ex10)) ∧
    (compute (withForce3 ex10)).num_plies = max 3 (compute ex10).num_plies ∧
    compute (withForce3 ex10b) = compute ex10b := by
  have hrun10 : run_calculation ex10 = Except.ok (compute ex10) :=
    run_ok_of ex10 (by norm_num [validationErrors, PROWRAP.max_temp, ex10])
      (by norm_num [ex10]) (by norm_num [ex10]) (by norm_num [ex10])
  have hrun10b : run_calculation ex10b = Except.ok (compute ex10b) :=
    run_ok_of ex10b (by norm_num [validationErrors, PROWRAP.max_temp, ex10b])
      (by norm_num [ex10b]) (by norm_num [ex10b]) (by norm_num [ex10b])
  obtain ⟨ha1, ha2, -, -, -, -, -, -, -, -, -⟩ :=
    c10_force_three_layer_rerun ex10 (compute ex10) rfl hrun10
  obtain ⟨-, -, -, -, -, -, -, -, -, -, hb⟩ :=
    c10_force_three_layer_rerun ex10b (compute ex10b) rfl hrun10b
  exact ⟨ha1, ha2, hb rfl⟩

end PWR110
